import Mathlib

/-!
Shallow embedding of the LandGuard dashboard's map-synchronization,
camera-flight, plot-selection and scan-orchestration logic, with theorems
checking the natural-language specification against the code.

Sources embedded here:
* `MapSync` (overlay `ComparisonView`, module-level `activeMapId` /
  `isSyncing` flags) — interaction-gated dual-map synchronizer;
* `SyncView` (main `ComparisonView`) — guard-only dual-map synchronizer;
* `MapUpdater` (`Map.jsx`), `FlyTo` and `RegionCenter` — camera-flight
  effect components;
* `ComparisonView` selection/zoom handling (`LABEL_ZOOM_THRESHOLD`,
  auto-deselect effect, `handleSelect`);
* `SmartDashboard.handlePlotClick` and the batched `scanAll`
  auto-scan effect;
* `centroid` and `calcPenalty` helpers and the intelligence report's
  financial-liability arithmetic.

JavaScript numbers are modelled as rationals (`ℚ`), zoom levels as
integers, and the browser event loop as explicit event traces: a Leaflet
`setView` with `animate: false` fires the target map's move handlers
synchronously, which is modelled by a fuelled re-entrant dispatch (the
fuel is irrelevant above zero, proved below, so the cutoff is harmless).
-/

namespace LandGuard

/-- A Leaflet map panel identifier in the `MapSync` synchronizer
(`mapId="left"` / `mapId="right"`). -/
inductive Panel where
  | left
  | right
deriving DecidableEq, Repr

/-- The paired panel of a panel. -/
def Panel.other : Panel → Panel
  | .left => .right
  | .right => .left

/-- A map view-state: center latitude/longitude and zoom level. -/
structure MapView where
  lat : ℚ
  lng : ℚ
  zoom : ℤ
deriving DecidableEq, Repr

/-- Record of one programmatic `setView` call issued by a synchronizer:
which panel it targets, the view applied, and the `animate` option. -/
structure SetViewCall (π : Type) where
  target : π
  view : MapView
  animate : Bool
deriving DecidableEq, Repr

/-! ### `MapSync` (part_003): module-level `activeMapId` and `isSyncing` -/

/-- State of the `MapSync` pair: both panels' views, the module-level
`activeMapId` (which panel the user last started interacting with,
`null` initially) and `isSyncing` flags, and the log of programmatic
`setView` calls issued so far. -/
structure MSState where
  viewLeft : MapView
  viewRight : MapView
  activeMapId : Option Panel
  isSyncing : Bool
  log : List (SetViewCall Panel)
deriving DecidableEq, Repr

/-- View of a given panel. -/
def MSState.view (s : MSState) : Panel → MapView
  | .left => s.viewLeft
  | .right => s.viewRight

/-- Overwrite one panel's view (a map having moved, by user drag/zoom or
by a programmatic `setView`). -/
def MSState.setPanelView (s : MSState) : Panel → MapView → MSState
  | .left, v => { s with viewLeft := v }
  | .right, v => { s with viewRight := v }

/-- The `syncOther` handler of the `MapSync` component attached to panel
`p`, translated from part_003 lines 26–39: bail out unless `activeMapId`
is this panel, bail out while `isSyncing`, otherwise set the guard, apply
a non-animated `setView` to the other panel and schedule the 50 ms guard
release.  The programmatic `setView` synchronously fires the other
panel's `moveend`, re-entering that panel's `syncOther`; the re-entry is
modelled by the fuel argument (fuel-irrelevance above zero is proved in
`msSyncOther_fuel`). -/
def msSyncOther : ℕ → Panel → MSState → MSState
  | 0, _, s => s
  | n + 1, p, s =>
    if s.activeMapId ≠ some p then s
    else if s.isSyncing then s
    else
      msSyncOther n p.other
        { (s.setPanelView p.other (s.view p)) with
            isSyncing := true
            log := s.log ++ [⟨p.other, s.view p, false⟩] }

/-- External events driving the `MapSync` pair: an interaction start
(`mousedown`/`touchstart`/`wheel`) on a panel's container, a user-driven
`moveend`/`zoomend` on a panel leaving it at view `v`, and the firing of
the 50 ms `setTimeout` that releases the `isSyncing` guard. -/
inductive MSEvent where
  | interactionStart (p : Panel)
  | moveEnd (p : Panel) (v : MapView)
  | releaseGuard
deriving DecidableEq, Repr

/-- One event-loop step of the `MapSync` pair. -/
def msStep (s : MSState) : MSEvent → MSState
  | .interactionStart p => { s with activeMapId := some p }
  | .moveEnd p v => msSyncOther 2 p (s.setPanelView p v)
  | .releaseGuard => { s with isSyncing := false }

/-- Run a trace of events. -/
def msRun (s : MSState) (evs : List MSEvent) : MSState :=
  evs.foldl msStep s

/-! ### `SyncView` (part_000 lines 562–593): shared `isSyncing` only -/

/-- Panel identifier in the `SyncView` synchronizer (`isMaster`). -/
inductive SVPanel where
  | master
  | slave
deriving DecidableEq, Repr

/-- The paired panel of a `SyncView` panel. -/
def SVPanel.other : SVPanel → SVPanel
  | .master => .slave
  | .slave => .master

/-- State of the `SyncView` pair (`syncRef.current`): both registered
maps' views, the shared `isSyncing` guard, and the log of programmatic
`setView` calls.  `SyncView` keeps no record of which panel the user is
interacting with. -/
structure SVState where
  viewMaster : MapView
  viewSlave : MapView
  isSyncing : Bool
  log : List (SetViewCall SVPanel)
deriving DecidableEq, Repr

/-- View of a given `SyncView` panel. -/
def SVState.view (s : SVState) : SVPanel → MapView
  | .master => s.viewMaster
  | .slave => s.viewSlave

/-- Overwrite one `SyncView` panel's view. -/
def SVState.setPanelView (s : SVState) : SVPanel → MapView → SVState
  | .master, v => { s with viewMaster := v }
  | .slave, v => { s with viewSlave := v }

/-- The `syncOther` callback of `SyncView` on panel `p` (part_000 lines
573–585): bail out while `isSyncing`, otherwise set the guard, apply a
non-animated `setView` to the other panel, and schedule the
`requestAnimationFrame` guard release.  There is no check of which panel
the user is interacting with.  As in `msSyncOther`, the synchronous
re-entry caused by the programmatic `setView` is fuelled. -/
def svSyncOther : ℕ → SVPanel → SVState → SVState
  | 0, _, s => s
  | n + 1, p, s =>
    if s.isSyncing then s
    else
      svSyncOther n p.other
        { (s.setPanelView p.other (s.view p)) with
            isSyncing := true
            log := s.log ++ [⟨p.other, s.view p, false⟩] }

/-- External events driving the `SyncView` pair: a `move`/`zoom` event on
a panel leaving it at view `v`, and the `requestAnimationFrame` callback
releasing the guard. -/
inductive SVEvent where
  | move (p : SVPanel) (v : MapView)
  | releaseGuard
deriving DecidableEq, Repr

/-- One event-loop step of the `SyncView` pair. -/
def svStep (s : SVState) : SVEvent → SVState
  | .move p v => svSyncOther 2 p (s.setPanelView p v)
  | .releaseGuard => { s with isSyncing := false }

/-- Run a trace of `SyncView` events. -/
def svRun (s : SVState) (evs : List SVEvent) : SVState :=
  evs.foldl svStep s

/-- The schedule in which each user change on panel `p` is followed by
the deferred guard release before the next change arrives (the guard is
free when every change is processed). -/
def msPacedChanges (p : Panel) (vs : List MapView) : List MSEvent :=
  vs.flatMap (fun v => [.moveEnd p v, .releaseGuard])

/-- The analogous guard-free schedule for the `SyncView` pair. -/
def svPacedChanges (p : SVPanel) (vs : List MapView) : List SVEvent :=
  vs.flatMap (fun v => [.move p v, .releaseGuard])

/-- A sample view used for concrete runs (center 10°N 20°E, zoom 13). -/
def viewA : MapView := ⟨10, 20, 13⟩

/-- A second sample view. -/
def viewB : MapView := ⟨11, 21, 15⟩

/-- A third sample view. -/
def viewC : MapView := ⟨12, 22, 16⟩

/-- Initial `MapSync` state: both panels at `viewA`, `activeMapId = null`,
`isSyncing = false`, no programmatic `setView` issued yet. -/
def msInit : MSState := ⟨viewA, viewA, none, false, []⟩

/-- Initial `SyncView` state: both panels at `viewA`, guard free. -/
def svInit : SVState := ⟨viewA, viewA, false, []⟩

/-! ### Shared data model: plots, analysis responses, zones -/

/-- Area breakdown of an analysis response (`area_analysis` /
`area_breakdown` object of the backend). -/
structure Area where
  total_area_sqm : ℚ
  excess_area_sqm : ℚ
  excess_area_sqft : ℚ
  utilization_ratio : ℚ
deriving DecidableEq, Repr

/-- Response of `POST /analyze_plot`. -/
structure AnalysisResp where
  is_violating : Bool
  analysis_summary : String
  vacancy_analysis : ℚ
  encroachment_analysis : ℚ
  confidence_score : ℚ
  area_analysis : Area
deriving DecidableEq, Repr

/-- The `analysis_data` object stored on a plot after a scan. -/
structure AnalysisData where
  ndvi : ℚ
  radar : ℚ
  confidence : ℚ
  area : Area
deriving DecidableEq, Repr

/-- A plot record as held in the dashboard state.  `coordinates` is the
GeoJSON polygon: a list of rings, each ring a list of coordinate arrays
`[lng, lat, ...]`. -/
structure PlotRec where
  plot_id : String
  zone_id : String
  coordinates : List (List (List ℚ))
  is_violating : Bool
  description : String
  analysis_data : Option AnalysisData
  area_sqkm : ℚ
deriving DecidableEq, Repr

/-- The `allZonesData` object: zone id keyed lists of plots (modelled as
an association list in `Object.entries` order). -/
abbrev ZonesData := List (String × List PlotRec)

/-- Mapping of an `/analyze_plot` response into `analysis_data`
(`SmartDashboard.jsx`, identical in `handlePlotClick` and `scanAll`). -/
def respToAnalysisData (d : AnalysisResp) : AnalysisData :=
  ⟨d.vacancy_analysis, d.encroachment_analysis, d.confidence_score, d.area_analysis⟩

/-- The `{ ...p, is_violating, description, analysis_data }` merge used
whenever an analysis response is written into a plot record. -/
def applyResp (p : PlotRec) (d : AnalysisResp) : PlotRec :=
  { p with
      is_violating := d.is_violating
      description := d.analysis_summary
      analysis_data := some (respToAnalysisData d) }

/-- Per-plot write of a response into a zone's plot list
(`updated[zoneId].map(p => p.plot_id === plotId ? {...p, ...} : p)`). -/
def updatePlots (plotId : String) (d : AnalysisResp) (ps : List PlotRec) : List PlotRec :=
  ps.map (fun p => if p.plot_id = plotId then applyResp p d else p)

/-- Per-entry write of a response into `allZonesData` keyed by a
`(zoneId, plotId, response)` triple. -/
def updateEntry (r : String × String × AnalysisResp) (e : String × List PlotRec) :
    String × List PlotRec :=
  if e.1 = r.1 then (e.1, updatePlots r.2.1 r.2.2 e.2) else e

/-- The `setAllZonesData` updater used by both `handlePlotClick` and
`scanAll`: replace the analysis fields of the matching plot of the
matching zone, leave everything else untouched. -/
def updateZones (zoneId plotId : String) (d : AnalysisResp) (zd : ZonesData) : ZonesData :=
  zd.map (updateEntry (zoneId, plotId, d))

/-! ### Geometry helper `centroid` (part_000 lines 545–557) -/

/-- A raw entry of a polygon ring as JavaScript sees it: either an array
of numbers or some non-array value (`Array.isArray(pt)` check). -/
inductive RingEntry where
  | arr (cs : List ℚ)
  | nonArray
deriving DecidableEq, Repr

/-- The latitude/longitude of a valid ring entry (an array of length at
least 2, read as `[lng, lat, ...]`), and `none` otherwise. -/
def entryLatLng : RingEntry → Option (ℚ × ℚ)
  | .arr (lng :: lat :: _) => some (lat, lng)
  | _ => none

/-- One iteration of the accumulation loop of `centroid`:
`if (Array.isArray(pt) && pt.length >= 2) { lat += pt[1]; lng += pt[0]; n++ }`. -/
def centroidStep (acc : ℚ × ℚ × ℕ) (pt : RingEntry) : ℚ × ℚ × ℕ :=
  match pt with
  | .arr (lng :: lat :: _) => (acc.1 + lat, acc.2.1 + lng, acc.2.2 + 1)
  | _ => acc

/-- The `centroid` helper: `null`/empty rings give `[0, 0]`; otherwise
the mean latitude and longitude over the valid entries, or `[0, 0]`
when no entry is valid. -/
def centroid (ring : Option (List RingEntry)) : ℚ × ℚ :=
  match ring with
  | none => (0, 0)
  | some r =>
    if r.length = 0 then (0, 0)
    else
      let acc := r.foldl centroidStep (0, 0, 0)
      if acc.2.2 > 0 then (acc.1 / (acc.2.2 : ℚ), acc.2.1 / (acc.2.2 : ℚ))
      else (0, 0)

/-! ### Financial penalty arithmetic (claim C9) -/

/-- JavaScript `Math.round`: round half away from zero upward, i.e.
`⌊x + 1/2⌋`. -/
def jsRound (q : ℚ) : ℤ := ⌊q + 1 / 2⌋

/-- `calcPenalty` of `SmartDashboard.jsx` (lines 207–211):
`sqft = excessSqM * 10.764; 25000 + Math.round(sqft * 600)`. -/
def calcPenalty (excessSqM : ℚ) : ℤ :=
  let sqft := excessSqM * 10.764
  25000 + jsRound (sqft * 600)

/-- The "Total Recoverable" amount of the intelligence report
(part_002 lines 375–391):
`25000 + Math.round((area?.excess_area_sqm || 0) * 10.764 * 600)`. -/
def reportTotalRecoverable (excessSqM : ℚ) : ℤ :=
  25000 + jsRound (excessSqM * 10.764 * 600)

/-! ### Camera-flight components (claim C4) -/

/-- A camera center `[lat, lng]`. -/
abbrev Center := ℚ × ℚ

/-- An animated `map.flyTo(center, zoom, { duration })` call. -/
structure FlyCall where
  lat : ℚ
  lng : ℚ
  zoom : ℤ
  duration : ℚ
deriving DecidableEq, Repr

/-- An animated `map.flyToBounds(bounds, { padding, duration, maxZoom })`
call; the bounds are recorded as the collected coordinate list. -/
structure BoundsFly where
  latlngs : List (ℚ × ℚ)
  paddingX : ℚ
  paddingY : ℚ
  duration : ℚ
  maxZoom : ℤ
deriving DecidableEq, Repr

/-- A React effect component run over its successive dependency values:
the effect fires on mount and whenever the dependency changes between
renders, emitting a list of calls each time. -/
def effectRunAux {α β : Type} [DecidableEq α] (effect : α → List β) :
    α → List α → List β
  | _, [] => []
  | prev, d :: rest => (if d ≠ prev then effect d else []) ++ effectRunAux effect d rest

/-- Run an effect component from its mount render (the effect always
fires on mount). -/
def effectRun {α β : Type} [DecidableEq α] (effect : α → List β) :
    List α → List β
  | [] => []
  | d :: rest => effect d ++ effectRunAux effect d rest

/-- Effect body of `MapUpdater` (`Map.jsx` lines 7–17):
`if (center) map.flyTo(center, 16, { duration: 1.5 })`. -/
def mapUpdaterEffect : Option Center → List FlyCall
  | some c => [⟨c.1, c.2, 16, 1.5⟩]
  | none => []

/-- Effect body of `FlyTo` (part_000 lines 610–616):
`if (center) map.flyTo(center, 18, { duration: 0.8 })`. -/
def flyToEffect : Option Center → List FlyCall
  | some c => [⟨c.1, c.2, 18, 0.8⟩]
  | none => []

/-- Effect body of `FlyToPlot` (part_003 lines 64–72):
`if (center) map.flyTo(center, 18, { duration: 1.2 })`. -/
def flyToPlotEffect : Option Center → List FlyCall
  | some c => [⟨c.1, c.2, 18, 1.2⟩]
  | none => []

/-- Flights emitted by `MapUpdater` over a render sequence (head =
mount). -/
def mapUpdaterRun : List (Option Center) → List FlyCall :=
  effectRun mapUpdaterEffect

/-- Flights emitted by `FlyTo` over a render sequence. -/
def flyToRun : List (Option Center) → List FlyCall :=
  effectRun flyToEffect

/-- Flights emitted by `FlyToPlot` over a render sequence. -/
def flyToPlotRun : List (Option Center) → List FlyCall :=
  effectRun flyToPlotEffect

/-- The `[lat, lng]` pairs `RegionCenter` collects from one plot:
skip the plot if `!p.coordinates?.[0]`, else keep `[c[1], c[0]]` for
each coordinate array of length at least 2. -/
def plotLatLngs (p : PlotRec) : List (ℚ × ℚ) :=
  match p.coordinates.head? with
  | none => []
  | some ring =>
    ring.filterMap (fun c =>
      match c with
      | lng :: lat :: _ => some (lat, lng)
      | _ => none)

/-- Key lookup `allZonesData?.[activeRegion]`. -/
def zoneLookup (zd : ZonesData) (k : String) : Option (List PlotRec) :=
  (zd.find? (fun e => e.1 == k)).map Prod.snd

/-- The flight the `RegionCenter` effect issues for the given
`activeRegion` and `allZonesData` (part_000 lines 621–668), `none`
when it returns without flying: the `"all"` pseudo-region flies to the
bounds of every plot with `maxZoom 14`, a single region to its own
bounds with `maxZoom 17`, and empty data or empty coordinate lists
produce no flight. -/
def regionCenterFlight (activeRegion : String) (zd : ZonesData) : Option BoundsFly :=
  if activeRegion = "all" then
    let allPlots := (zd.map Prod.snd).flatten
    if allPlots.length = 0 then none
    else
      let latlngs := allPlots.flatMap plotLatLngs
      if latlngs.length > 0 then some ⟨latlngs, 50, 50, 1.5, 14⟩ else none
  else
    match zoneLookup zd activeRegion with
    | none => none
    | some regionPlots =>
      if regionPlots.length = 0 then none
      else
        let latlngs := regionPlots.flatMap plotLatLngs
        if latlngs.length > 0 then some ⟨latlngs, 50, 50, 1.5, 17⟩ else none

/-- Flights emitted by `RegionCenter` over a render sequence (head =
mount): the `isInitialMount` ref suppresses the mount run, and after
that the effect fires only when `(activeRegion, allZonesData)`
changes. -/
def regionCenterRun : List (String × ZonesData) → List BoundsFly
  | [] => []
  | d :: rest => effectRunAux (fun d2 => (regionCenterFlight d2.1 d2.2).toList) d rest

/-! ### ComparisonView selection state (claims C5, C6) -/

/-- `LABEL_ZOOM_THRESHOLD` (part_000 line 540). -/
def LABEL_ZOOM_THRESHOLD : ℤ := 14

/-- `showLabels = zoomLevel >= LABEL_ZOOM_THRESHOLD`. -/
def showLabels (z : ℤ) : Bool := LABEL_ZOOM_THRESHOLD ≤ z

/-- The `ComparisonView` selection fragment: current zoom level (from
`ZoomTracker`), the locally selected plot, and the scan/report flags. -/
structure CompSelState where
  zoomLevel : ℤ
  localSelected : Option PlotRec
  isScanning : Bool
  showReport : Bool
deriving DecidableEq, Repr

/-- Events on the `ComparisonView` selection fragment: a `zoomend`
reported by `ZoomTracker`, and a click on a plot polygon
(`handleSelect`). -/
inductive CompEvent where
  | zoomTo (z : ℤ)
  | clickPlot (p : PlotRec)
deriving DecidableEq, Repr

/-- One step of the selection fragment.  A zoom change re-runs the
auto-deselect effect only when `showLabels` changed between renders
(its dependency array is `[showLabels]`), and the effect clears the
selection when `!showLabels`.  A polygon click runs `handleSelect`,
which only sets `localSelected`. -/
def compStep (s : CompSelState) : CompEvent → CompSelState
  | .zoomTo z =>
    { s with
        zoomLevel := z
        localSelected :=
          if showLabels z ≠ showLabels s.zoomLevel then
            if showLabels z then s.localSelected else none
          else s.localSelected }
  | .clickPlot p => { s with localSelected := some p }

/-- Run a trace of `ComparisonView` selection events. -/
def compRun (s : CompSelState) (evs : List CompEvent) : CompSelState :=
  evs.foldl compStep s

/-! ### SmartDashboard scan orchestration (claims C5, C7, C8) -/

/-- A network request issued to the analysis backend. -/
inductive ApiRequest where
  | analyzePlot (plot_id : String) (ring : List (List ℚ))
  | analyzeTimeline (plot_id : String) (ring : List (List ℚ))
deriving DecidableEq, Repr

/-- One raw item of an `/analyze_timeline` response. -/
structure TimelineItem where
  date : String
  encroached_area : ℚ
deriving DecidableEq, Repr

/-- One formatted timeline entry
(`{ date, displayDate: new Date(date).toLocaleDateString(...), area }`;
the locale formatting is an external function passed as `fmtDate`). -/
structure TimelineEntry where
  date : String
  displayDate : String
  area : ℚ
deriving DecidableEq, Repr

/-- The `scanProgress` state. -/
structure ScanProgress where
  scanned : ℕ
  total : ℕ
  scanning : Bool
deriving DecidableEq, Repr

/-- The slice of `SmartDashboard` state touched by `handlePlotClick`,
plus a log of the network requests it issues. -/
structure DashState where
  selectedPlot : Option PlotRec
  loading : Bool
  timelineLoading : Bool
  allZonesData : ZonesData
  plots : List PlotRec
  timelineData : List TimelineEntry
  notifications : List String
  requests : List ApiRequest
deriving DecidableEq, Repr

/-- The transient description set when a scan starts. -/
def scanningDescription : String := "🛰️ Initiating Live Satellite Scan..."

/-- The notification shown when a scan is requested. -/
def requestMsg (plot : PlotRec) : String :=
  "🛰️ Requesting GEE Analysis for " ++ plot.plot_id ++ "..."

/-- The notification shown when both responses arrived. -/
def dataReceivedMsg : String := "✅ Satellite Data Received"

/-- The notification shown when the scan failed. -/
def backendErrorMsg : String := "❌ Backend Error: Check Flask Terminal"

/-- Format an `/analyze_timeline` response for the chart. -/
def fmtTimeline (fmtDate : String → String) (t : List TimelineItem) : List TimelineEntry :=
  t.map (fun i => ⟨i.date, fmtDate i.date, i.encroached_area⟩)

/-- `handlePlotClick` (`SmartDashboard.jsx` lines 590–661): mark the
selected plot as scanning (transient description, `is_violating`
cleared), set the loading flags, notify, issue the two parallel
requests; on success (`outcome = some _`, both promises fulfilled)
merge the combined response into `selectedPlot`, `timelineData`,
`allZonesData` and `plots` and notify success; on failure
(`outcome = none`, `Promise.all` rejected) only notify the error.
The loading flags are cleared on both paths. -/
def handlePlotClick (fmtDate : String → String) (plot : PlotRec)
    (outcome : Option (AnalysisResp × List TimelineItem)) (s : DashState) : DashState :=
  let s1 : DashState :=
    { s with
        selectedPlot :=
          some { plot with description := scanningDescription, is_violating := false }
        loading := true
        timelineLoading := true
        notifications := s.notifications ++ [requestMsg plot]
        requests := s.requests ++
          [.analyzePlot plot.plot_id (plot.coordinates.headD []),
           .analyzeTimeline plot.plot_id (plot.coordinates.headD [])] }
  match outcome with
  | some (a, t) =>
    { s1 with
        selectedPlot := s1.selectedPlot.map (fun prev =>
          { prev with
              is_violating := a.is_violating
              description := a.analysis_summary
              analysis_data := some (respToAnalysisData a) })
        timelineData := fmtTimeline fmtDate t
        allZonesData := updateZones plot.zone_id plot.plot_id a s1.allZonesData
        plots := updatePlots plot.plot_id a s1.plots
        notifications := s1.notifications ++ [dataReceivedMsg]
        loading := false
        timelineLoading := false }
  | none =>
    { s1 with
        notifications := s1.notifications ++ [backendErrorMsg]
        loading := false
        timelineLoading := false }

/-- The `Map.jsx` polygon click wiring in the single-map view:
`eventHandlers.click: () => onPlotClick(plot)` with
`onPlotClick = handlePlotClick`. -/
def mapPolygonClick (fmtDate : String → String) (plot : PlotRec)
    (outcome : Option (AnalysisResp × List TimelineItem)) (s : DashState) : DashState :=
  handlePlotClick fmtDate plot outcome s

/-- `handleScan` of `ComparisonView` (part_000 lines 720–725): no-op if
nothing is selected, else set the scanning flag, hide the report, and
call `onSelectPlot(active)`, which is `handlePlotClick`. -/
def handleScan (fmtDate : String → String)
    (outcome : Option (AnalysisResp × List TimelineItem))
    (cs : CompSelState) (ds : DashState) : CompSelState × DashState :=
  match cs.localSelected with
  | none => (cs, ds)
  | some active =>
    ({ cs with isScanning := true, showReport := false },
     handlePlotClick fmtDate active outcome ds)

/-! ### Bulk auto-scan `scanAll` (claim C7) -/

/-- Batches of 5 (`for (let i = 0; i < tasks.length; i += BATCH)` with
`BATCH = 5`). -/
def chunksOf5 {α : Type} : List α → List (List α)
  | [] => []
  | x :: xs => ((x :: xs).take 5) :: chunksOf5 ((x :: xs).drop 5)
termination_by l => l.length
decreasing_by
  simp [List.length_drop]
  omega

/-- The flattened `(zoneId, plot)` task list of `scanAll`. -/
def scanTasks (zd : ZonesData) : List (String × PlotRec) :=
  zd.flatMap (fun e => e.2.map (fun p => (e.1, p)))

/-- The settled results of one batch (`Promise.allSettled` followed by
the `status === 'fulfilled'` filter): the oracle maps a task to its
response, `none` meaning that request rejected. -/
def scanBatchResults (oracle : String → String → Option AnalysisResp)
    (batch : List (String × PlotRec)) : List (String × String × AnalysisResp) :=
  batch.filterMap (fun t => (oracle t.1 t.2.plot_id).map (fun d => (t.1, t.2.plot_id, d)))

/-- Merge one batch's fulfilled results into `allZonesData`. -/
def mergeBatch (results : List (String × String × AnalysisResp)) (zd : ZonesData) : ZonesData :=
  results.foldl (fun zd r => updateZones r.1 r.2.1 r.2.2 zd) zd

/-- One batch iteration of the bulk auto-scan loop: merge the batch's
fulfilled results and advance the progress counter
(`min(scanned + batch.length, total)`). -/
def scanBatchStep (oracle : String → String → Option AnalysisResp) (total : ℕ)
    (acc : ZonesData × ℕ) (batch : List (String × PlotRec)) : ZonesData × ℕ :=
  (mergeBatch (scanBatchResults oracle batch) acc.1, min (acc.2 + batch.length) total)

/-- The bulk auto-scan (`SmartDashboard.jsx` lines 663–731): if there
are no plots the effect returns before scanning (leaving the initial
`scanProgress`); otherwise batches of 5 are processed sequentially via
`scanBatchStep`, and finally `scanProgress` is set to
`{ scanned: total, total, scanning: false }`.  Returns the final
`allZonesData` and `scanProgress`. -/
def scanAllRun (oracle : String → String → Option AnalysisResp) (zd : ZonesData) :
    ZonesData × ScanProgress :=
  let total := ((zd.map Prod.snd).flatten).length
  if total = 0 then (zd, ⟨0, 0, false⟩)
  else
    let batches := chunksOf5 (scanTasks zd)
    let final := batches.foldl (scanBatchStep oracle total) (zd, 0)
    (final.1, ⟨total, total, false⟩)

/-- Pointwise description of what the bulk scan does to one plot of one
zone: the fulfilled response is merged, a rejected request leaves the
plot unchanged. -/
def oraclePointwise (oracle : String → String → Option AnalysisResp)
    (z : String) (p : PlotRec) : PlotRec :=
  match oracle z p.plot_id with
  | some d => applyResp p d
  | none => p

/-- Folding a result list into one `allZonesData` entry (derived view of
`mergeBatch`, which maps over entries). -/
def entryFold (rs : List (String × String × AnalysisResp)) (e : String × List PlotRec) :
    String × List PlotRec :=
  rs.foldl (fun e r => updateEntry r e) e

/-- Folding plot-level results into a plot list. -/
def plotsFold (rs : List (String × AnalysisResp)) (qs : List PlotRec) : List PlotRec :=
  rs.foldl (fun qs r => updatePlots r.1 r.2 qs) qs

/-- Folding plot-level results into one plot record. -/
def plotFold (rs : List (String × AnalysisResp)) (q : PlotRec) : PlotRec :=
  rs.foldl (fun q r => if q.plot_id = r.1 then applyResp q r.2 else q) q

/-- The fulfilled results generated by one zone's plots. -/
def zoneResults (oracle : String → String → Option AnalysisResp)
    (z : String) (ps : List PlotRec) : List (String × String × AnalysisResp) :=
  ps.filterMap (fun p => (oracle z p.plot_id).map (fun d => (z, p.plot_id, d)))

/-- The fulfilled results generated by one zone's plots, at the plot
level (zone component dropped). -/
def plotResults (oracle : String → String → Option AnalysisResp)
    (z : String) (ps : List PlotRec) : List (String × AnalysisResp) :=
  ps.filterMap (fun p => (oracle z p.plot_id).map (fun d => (p.plot_id, d)))

/-- Concrete sample plot used in witnesses and counterexamples. -/
def plotP1 : PlotRec :=
  ⟨"P-1", "siyarpali", [[[81, 21], [82, 21], [82, 22]]], false, "Awaiting scan", none, 1 / 100⟩

/-- Concrete sample plot flagged as violating, with an informative
description, used in witnesses and counterexamples. -/
def plotV : PlotRec :=
  ⟨"P-7", "khapri", [[[83, 21], [84, 21], [84, 22]]], true, "Violation detected", none, 2 / 100⟩

/-- Concrete sample analysis response. -/
def respSample : AnalysisResp :=
  ⟨true, "Encroachment detected", 3 / 10, 6 / 10, 9 / 10, ⟨1000, 120, 1292, 7 / 10⟩⟩

/-- Concrete dashboard state holding the two sample plots. -/
def dash0 : DashState :=
  ⟨some plotV, false, false, [("siyarpali", [plotP1]), ("khapri", [plotV])],
   [plotP1, plotV], [], [], []⟩

/-! ### Basic guard lemmas for the synchronizers -/

theorem msSyncOther_of_guard (n : ℕ) (p : Panel) (s : MSState)
    (h : s.isSyncing = true) : msSyncOther n p s = s := by
  cases n with
  | zero => rfl
  | succ n =>
    unfold msSyncOther
    by_cases hp : s.activeMapId ≠ some p
    · simp [hp]
    · simp [hp, h]

theorem svSyncOther_of_guard (n : ℕ) (p : SVPanel) (s : SVState)
    (h : s.isSyncing = true) : svSyncOther n p s = s := by
  cases n with
  | zero => rfl
  | succ n =>
    unfold svSyncOther
    simp [h]

/-- The fuel cutoff in `msSyncOther` is irrelevant above zero: the
`isSyncing` guard stops the synchronous re-entry at depth one. -/
theorem msSyncOther_fuel (n : ℕ) (p : Panel) (s : MSState) :
    msSyncOther (n + 1) p s = msSyncOther 1 p s := by
  unfold msSyncOther
  by_cases hp : s.activeMapId ≠ some p
  · simp [hp]
  · by_cases hg : s.isSyncing
    · simp [hp, hg]
    · simp only [hp, hg]
      rw [msSyncOther_of_guard n p.other _ rfl]
      rw [msSyncOther_of_guard 0 p.other _ rfl]

/-- The fuel cutoff in `svSyncOther` is irrelevant above zero. -/
theorem svSyncOther_fuel (n : ℕ) (p : SVPanel) (s : SVState) :
    svSyncOther (n + 1) p s = svSyncOther 1 p s := by
  unfold svSyncOther
  by_cases hg : s.isSyncing
  · simp [hg]
  · simp only [hg]
    rw [svSyncOther_of_guard n p.other _ rfl]
    rw [svSyncOther_of_guard 0 p.other _ rfl]

@[simp]
theorem Panel.other_ne (p : Panel) : p.other ≠ p := by
  cases p <;> simp [Panel.other]

@[simp]
theorem MSState.view_setPanelView_self (s : MSState) (p : Panel) (v : MapView) :
    (s.setPanelView p v).view p = v := by
  cases p <;> rfl

theorem MSState.view_setPanelView_of_ne (s : MSState) (p q : Panel) (v : MapView)
    (h : q ≠ p) : (s.setPanelView p v).view q = s.view q := by
  cases p <;> cases q <;> simp_all <;> rfl

@[simp]
theorem MSState.activeMapId_setPanelView (s : MSState) (p : Panel) (v : MapView) :
    (s.setPanelView p v).activeMapId = s.activeMapId := by
  cases p <;> rfl

@[simp]
theorem MSState.isSyncing_setPanelView (s : MSState) (p : Panel) (v : MapView) :
    (s.setPanelView p v).isSyncing = s.isSyncing := by
  cases p <;> rfl

@[simp]
theorem MSState.log_setPanelView (s : MSState) (p : Panel) (v : MapView) :
    (s.setPanelView p v).log = s.log := by
  cases p <;> rfl

@[simp]
theorem sv_other_ne (p : SVPanel) : p.other ≠ p := by
  cases p <;> simp [SVPanel.other]

@[simp]
theorem sv_view_setPanelView_self (s : SVState) (p : SVPanel) (v : MapView) :
    (s.setPanelView p v).view p = v := by
  cases p <;> rfl

theorem sv_view_setPanelView_of_ne (s : SVState) (p q : SVPanel) (v : MapView)
    (h : q ≠ p) : (s.setPanelView p v).view q = s.view q := by
  cases p <;> cases q <;> simp_all <;> rfl

@[simp]
theorem sv_isSyncing_setPanelView (s : SVState) (p : SVPanel) (v : MapView) :
    (s.setPanelView p v).isSyncing = s.isSyncing := by
  cases p <;> rfl

@[simp]
theorem sv_log_setPanelView (s : SVState) (p : SVPanel) (v : MapView) :
    (s.setPanelView p v).log = s.log := by
  cases p <;> rfl

/-- A `moveend` on a panel the synchronizer does not consider
authoritative only records that panel's own new view: no propagation,
no guard change, no programmatic `setView`. -/
theorem msStep_moveEnd_notActive (s : MSState) (q : Panel) (v : MapView)
    (h : s.activeMapId ≠ some q) :
    msStep s (.moveEnd q v) = s.setPanelView q v := by
  show msSyncOther 2 q (s.setPanelView q v) = s.setPanelView q v
  unfold msSyncOther
  simp [h]

/-- A `moveend` arriving while the `isSyncing` guard is held is ignored
by `MapSync`: only the moved panel's own view is recorded. -/
theorem msStep_moveEnd_guarded (s : MSState) (q : Panel) (v : MapView)
    (h : s.isSyncing = true) :
    msStep s (.moveEnd q v) = s.setPanelView q v := by
  show msSyncOther 2 q (s.setPanelView q v) = s.setPanelView q v
  unfold msSyncOther
  by_cases hp : (s.setPanelView q v).activeMapId ≠ some q
  · rw [if_pos hp]
  · rw [if_neg hp, if_pos (by simp [h])]

/-- A `moveend` on the authoritative panel with the guard free performs
exactly one propagation: the full resulting state of `MapSync`. -/
theorem msStep_moveEnd_sync (s : MSState) (p : Panel) (v : MapView)
    (hp : s.activeMapId = some p) (hg : s.isSyncing = false) :
    msStep s (.moveEnd p v) =
      { ((s.setPanelView p v).setPanelView p.other v) with
          isSyncing := true
          log := s.log ++ [⟨p.other, v, false⟩] } := by
  show msSyncOther 2 p (s.setPanelView p v) = _
  unfold msSyncOther
  simp only [MSState.activeMapId_setPanelView, hp, MSState.isSyncing_setPanelView, hg,
    MSState.view_setPanelView_self, MSState.log_setPanelView]
  rw [msSyncOther_of_guard 1 p.other _ rfl]
  simp

/-- A `move` arriving while the `isSyncing` guard is held is ignored by
`SyncView`: only the moved panel's own view is recorded. -/
theorem svStep_move_guarded (s : SVState) (q : SVPanel) (v : MapView)
    (h : s.isSyncing = true) :
    svStep s (.move q v) = s.setPanelView q v := by
  show svSyncOther 2 q (s.setPanelView q v) = s.setPanelView q v
  unfold svSyncOther
  simp [h]

/-- A `move` on either panel with the guard free performs exactly one
propagation in `SyncView` (no authoritative-panel check exists). -/
theorem svStep_move_sync (s : SVState) (p : SVPanel) (v : MapView)
    (hg : s.isSyncing = false) :
    svStep s (.move p v) =
      { ((s.setPanelView p v).setPanelView p.other v) with
          isSyncing := true
          log := s.log ++ [⟨p.other, v, false⟩] } := by
  show svSyncOther 2 p (s.setPanelView p v) = _
  unfold svSyncOther
  simp only [sv_isSyncing_setPanelView, hg,
    sv_view_setPanelView_self, sv_log_setPanelView]
  rw [svSyncOther_of_guard 1 p.other _ rfl]
  simp

theorem msRun_append (s : MSState) (a b : List MSEvent) :
    msRun s (a ++ b) = msRun (msRun s a) b :=
  List.foldl_append _ _ _ _

theorem svRun_append (s : SVState) (a b : List SVEvent) :
    svRun s (a ++ b) = svRun (svRun s a) b :=
  List.foldl_append _ _ _ _

@[simp]
theorem MSState.view_update_guard_log (x : MSState) (b : Bool)
    (l : List (SetViewCall Panel)) (p : Panel) :
    ({ x with isSyncing := b, log := l } : MSState).view p = x.view p := by
  cases p <;> rfl

@[simp]
theorem sv_view_update_guard_log (x : SVState) (b : Bool)
    (l : List (SetViewCall SVPanel)) (p : SVPanel) :
    ({ x with isSyncing := b, log := l } : SVState).view p = x.view p := by
  cases p <;> rfl

/-- One guard-free change/release pair on the authoritative panel of
`MapSync`, as a single state transformation. -/
theorem ms_pair_step (s : MSState) (p : Panel) (v : MapView)
    (hp : s.activeMapId = some p) (hg : s.isSyncing = false) :
    msRun s [.moveEnd p v, .releaseGuard] =
      { ((s.setPanelView p v).setPanelView p.other v) with
          isSyncing := false
          log := s.log ++ [⟨p.other, v, false⟩] } := by
  show msStep (msStep s (.moveEnd p v)) .releaseGuard = _
  rw [msStep_moveEnd_sync s p v hp hg]
  rfl

/-- One guard-free change/release pair on either panel of `SyncView`. -/
theorem sv_pair_step (s : SVState) (p : SVPanel) (v : MapView)
    (hg : s.isSyncing = false) :
    svRun s [.move p v, .releaseGuard] =
      { ((s.setPanelView p v).setPanelView p.other v) with
          isSyncing := false
          log := s.log ++ [⟨p.other, v, false⟩] } := by
  show svStep (svStep s (.move p v)) .releaseGuard = _
  rw [svStep_move_sync s p v hg]
  rfl

/-- Guard-free paced changes on the authoritative `MapSync` panel
converge: after the last change both panels show it, the guard is free
and the authority record is unchanged. -/
theorem ms_paced_converges (p : Panel) (vs : List MapView) :
    ∀ (v : MapView) (s : MSState),
      s.activeMapId = some p → s.isSyncing = false →
      ((msRun s (msPacedChanges p (vs ++ [v]))).view p = v ∧
       (msRun s (msPacedChanges p (vs ++ [v]))).view p.other = v ∧
       (msRun s (msPacedChanges p (vs ++ [v]))).isSyncing = false ∧
       (msRun s (msPacedChanges p (vs ++ [v]))).activeMapId = some p) := by
  induction vs with
  | nil =>
    intro v s hp hg
    have hrun : msPacedChanges p ([] ++ [v]) = [.moveEnd p v, .releaseGuard] := rfl
    rw [hrun, ms_pair_step s p v hp hg]
    refine ⟨?_, ?_, rfl, ?_⟩
    · rw [MSState.view_update_guard_log,
        MSState.view_setPanelView_of_ne _ _ _ _ (Panel.other_ne p).symm,
        MSState.view_setPanelView_self]
    · rw [MSState.view_update_guard_log, MSState.view_setPanelView_self]
    · show ((s.setPanelView p v).setPanelView p.other v).activeMapId = some p
      rw [MSState.activeMapId_setPanelView, MSState.activeMapId_setPanelView]
      exact hp
  | cons v0 vs ih =>
    intro v s hp hg
    have hsplit : msPacedChanges p ((v0 :: vs) ++ [v]) =
        [.moveEnd p v0, .releaseGuard] ++ msPacedChanges p (vs ++ [v]) := rfl
    rw [hsplit, msRun_append, ms_pair_step s p v0 hp hg]
    refine ih v _ ?_ ?_
    · show ((s.setPanelView p v0).setPanelView p.other v0).activeMapId = some p
      rw [MSState.activeMapId_setPanelView, MSState.activeMapId_setPanelView]
      exact hp
    · rfl

/-- Guard-free paced changes on either `SyncView` panel converge. -/
theorem sv_paced_converges (p : SVPanel) (vs : List MapView) :
    ∀ (v : MapView) (s : SVState),
      s.isSyncing = false →
      ((svRun s (svPacedChanges p (vs ++ [v]))).view p = v ∧
       (svRun s (svPacedChanges p (vs ++ [v]))).view p.other = v ∧
       (svRun s (svPacedChanges p (vs ++ [v]))).isSyncing = false) := by
  induction vs with
  | nil =>
    intro v s hg
    have hrun : svPacedChanges p ([] ++ [v]) = [.move p v, .releaseGuard] := rfl
    rw [hrun, sv_pair_step s p v hg]
    refine ⟨?_, ?_, rfl⟩
    · rw [sv_view_update_guard_log,
        sv_view_setPanelView_of_ne _ _ _ _ (sv_other_ne p).symm,
        sv_view_setPanelView_self]
    · rw [sv_view_update_guard_log, sv_view_setPanelView_self]
  | cons v0 vs ih =>
    intro v s hg
    have hsplit : svPacedChanges p ((v0 :: vs) ++ [v]) =
        [.move p v0, .releaseGuard] ++ svPacedChanges p (vs ++ [v]) := rfl
    rw [hsplit, svRun_append, sv_pair_step s p v0 hg]
    exact ih v _ rfl

/-- Every programmatic `setView` a `MapSync` step may append to the log
is non-animated. -/
theorem msStep_log_animate (s : MSState) (e : MSEvent) (c : SetViewCall Panel)
    (hc : c ∈ (msStep s e).log) : c ∈ s.log ∨ c.animate = false := by
  cases e with
  | interactionStart p => exact Or.inl hc
  | releaseGuard => exact Or.inl hc
  | moveEnd q v =>
    cases hs : s.isSyncing with
    | true =>
      rw [msStep_moveEnd_guarded s q v hs, MSState.log_setPanelView] at hc
      exact Or.inl hc
    | false =>
      by_cases hq : s.activeMapId = some q
      · rw [msStep_moveEnd_sync s q v hq hs] at hc
        rcases List.mem_append.mp hc with h | h
        · exact Or.inl h
        · right
          have : c = ⟨q.other, v, false⟩ := List.mem_singleton.mp h
          rw [this]
      · rw [msStep_moveEnd_notActive s q v (by simp [hq]), MSState.log_setPanelView] at hc
        exact Or.inl hc

/-- Every programmatic `setView` a `SyncView` step may append to the log
is non-animated. -/
theorem svStep_log_animate (s : SVState) (e : SVEvent) (c : SetViewCall SVPanel)
    (hc : c ∈ (svStep s e).log) : c ∈ s.log ∨ c.animate = false := by
  cases e with
  | releaseGuard => exact Or.inl hc
  | move q v =>
    cases hs : s.isSyncing with
    | true =>
      rw [svStep_move_guarded s q v hs, sv_log_setPanelView] at hc
      exact Or.inl hc
    | false =>
      rw [svStep_move_sync s q v hs] at hc
      rcases List.mem_append.mp hc with h | h
      · exact Or.inl h
      · right
        have : c = ⟨q.other, v, false⟩ := List.mem_singleton.mp h
        rw [this]

/-- Along any `MapSync` trace, all logged programmatic `setView` calls
are non-animated (given this held initially). -/
theorem msRun_log_animate (evs : List MSEvent) :
    ∀ (s : MSState), (∀ c ∈ s.log, c.animate = false) →
      ∀ c ∈ (msRun s evs).log, c.animate = false := by
  induction evs with
  | nil => intro s h c hc; exact h c hc
  | cons e evs ih =>
    intro s h c hc
    refine ih (msStep s e) ?_ c hc
    intro c' hc'
    rcases msStep_log_animate s e c' hc' with h' | h'
    · exact h c' h'
    · exact h'

/-- Along any `SyncView` trace, all logged programmatic `setView` calls
are non-animated (given this held initially). -/
theorem svRun_log_animate (evs : List SVEvent) :
    ∀ (s : SVState), (∀ c ∈ s.log, c.animate = false) →
      ∀ c ∈ (svRun s evs).log, c.animate = false := by
  induction evs with
  | nil => intro s h c hc; exact h c hc
  | cons e evs ih =>
    intro s h c hc
    refine ih (svStep s e) ?_ c hc
    intro c' hc'
    rcases svStep_log_animate s e c' hc' with h' | h'
    · exact h c' h'
    · exact h'

/-! ### Claim C1 -/

/-- Claim C1 as stated is false on the code: a second user change on the
interacting panel arriving before the deferred guard release is dropped
by the `isSyncing` check and never re-propagated.  Concretely, after the
user starts interacting with the left `MapSync` panel and two
`moveend`s (to `viewB`, then to `viewC`) arrive inside one 50 ms guard
window, the trace settles (guard released, no pending timers) with the
left panel at `viewC` but the right panel still at `viewB`. -/
theorem claim_C1_counterexample :
    (msRun msInit [.interactionStart .left, .moveEnd .left viewB,
        .moveEnd .left viewC, .releaseGuard]).viewLeft = viewC ∧
    (msRun msInit [.interactionStart .left, .moveEnd .left viewB,
        .moveEnd .left viewC, .releaseGuard]).viewRight = viewB ∧
    viewB ≠ viewC ∧
    (msRun msInit [.interactionStart .left, .moveEnd .left viewB,
        .moveEnd .left viewC, .releaseGuard]).isSyncing = false := by
  refine ⟨rfl, rfl, by decide, rfl⟩

/-- Claim C1 (amended): if each user change on the interacting panel is
propagated with the guard free (the deferred release fires between
consecutive changes), then after settling the other panel's center and
zoom equal the interacting panel's final center and zoom exactly, in
both synchronizers (`MapSync` needs the interaction start that records
authority; `SyncView` needs no such record); and every propagated view
change ever logged is a non-animated `setView`. -/
theorem claim_C1_amended_theorem :
    (∀ (s : MSState) (p : Panel) (vs : List MapView) (v : MapView),
        s.isSyncing = false →
        ((msRun s (.interactionStart p :: msPacedChanges p (vs ++ [v]))).view p = v ∧
         (msRun s (.interactionStart p :: msPacedChanges p (vs ++ [v]))).view p.other = v ∧
         (msRun s (.interactionStart p :: msPacedChanges p (vs ++ [v]))).isSyncing = false))
    ∧ (∀ (s : SVState) (p : SVPanel) (vs : List MapView) (v : MapView),
        s.isSyncing = false →
        ((svRun s (svPacedChanges p (vs ++ [v]))).view p = v ∧
         (svRun s (svPacedChanges p (vs ++ [v]))).view p.other = v ∧
         (svRun s (svPacedChanges p (vs ++ [v]))).isSyncing = false))
    ∧ (∀ (s : MSState) (evs : List MSEvent), s.log = [] →
        ∀ c ∈ (msRun s evs).log, c.animate = false)
    ∧ (∀ (s : SVState) (evs : List SVEvent), s.log = [] →
        ∀ c ∈ (svRun s evs).log, c.animate = false) := by
  refine ⟨?_, ?_, ?_, ?_⟩
  · intro s p vs v hg
    have hstep : msRun s (.interactionStart p :: msPacedChanges p (vs ++ [v])) =
        msRun { s with activeMapId := some p } (msPacedChanges p (vs ++ [v])) := rfl
    rw [hstep]
    have h := ms_paced_converges p vs v { s with activeMapId := some p } rfl hg
    exact ⟨h.1, h.2.1, h.2.2.1⟩
  · intro s p vs v hg
    exact sv_paced_converges p vs v s hg
  · intro s evs hlog
    refine msRun_log_animate evs s ?_
    intro c hc
    rw [hlog] at hc
    exact absurd hc (List.not_mem_nil c)
  · intro s evs hlog
    refine svRun_log_animate evs s ?_
    intro c hc
    rw [hlog] at hc
    exact absurd hc (List.not_mem_nil c)

/-- Witness for `claim_C1_amended_theorem` at concrete inputs. -/
theorem claim_C1_amended_witness :
    ((msRun msInit (.interactionStart .left ::
        msPacedChanges .left ([] ++ [viewB]))).view .left = viewB) ∧
    ((svRun svInit (svPacedChanges .master ([] ++ [viewB]))).view .master = viewB) ∧
    (∀ c ∈ (msRun msInit [.interactionStart .left, .moveEnd .left viewB]).log,
        c.animate = false) :=
  ⟨(claim_C1_amended_theorem.1 msInit .left [] viewB rfl).1,
   (claim_C1_amended_theorem.2.1 svInit .master [] viewB rfl).1,
   claim_C1_amended_theorem.2.2.1 msInit _ rfl⟩

/-! ### Claim C2 -/

/-- Claim C2: while the `isSyncing` guard is held (it is set immediately
before the programmatic `setView` on the paired panel and released only
by the deferred 50 ms timeout of `MapSync` / animation-frame tick of
`SyncView`), any incoming move/zoom event on any panel is ignored — the
step only records that panel's own new view, propagating nothing and
issuing no `setView`.  In particular a guard-free sync from the
authoritative panel `p` issues exactly one programmatic `setView`,
targeted at the paired panel only, and leaves `p` at its own view: no
propagation ever returns to `p`. -/
theorem claim_C2_theorem :
    (∀ (s : MSState) (q : Panel) (v : MapView), s.isSyncing = true →
        msStep s (.moveEnd q v) = s.setPanelView q v)
    ∧ (∀ (s : SVState) (q : SVPanel) (v : MapView), s.isSyncing = true →
        svStep s (.move q v) = s.setPanelView q v)
    ∧ (∀ (s : MSState) (p : Panel) (v : MapView),
        s.activeMapId = some p → s.isSyncing = false →
        ((msStep s (.moveEnd p v)).view p = v ∧
         (msStep s (.moveEnd p v)).view p.other = v ∧
         (msStep s (.moveEnd p v)).log = s.log ++ [⟨p.other, v, false⟩]))
    ∧ (∀ (s : SVState) (p : SVPanel) (v : MapView), s.isSyncing = false →
        ((svStep s (.move p v)).view p = v ∧
         (svStep s (.move p v)).view p.other = v ∧
         (svStep s (.move p v)).log = s.log ++ [⟨p.other, v, false⟩])) := by
  refine ⟨msStep_moveEnd_guarded, svStep_move_guarded, ?_, ?_⟩
  · intro s p v hp hg
    rw [msStep_moveEnd_sync s p v hp hg]
    refine ⟨?_, ?_, rfl⟩
    · rw [MSState.view_update_guard_log,
        MSState.view_setPanelView_of_ne _ _ _ _ (Panel.other_ne p).symm,
        MSState.view_setPanelView_self]
    · rw [MSState.view_update_guard_log, MSState.view_setPanelView_self]
  · intro s p v hg
    rw [svStep_move_sync s p v hg]
    refine ⟨?_, ?_, rfl⟩
    · rw [sv_view_update_guard_log,
        sv_view_setPanelView_of_ne _ _ _ _ (sv_other_ne p).symm,
        sv_view_setPanelView_self]
    · rw [sv_view_update_guard_log, sv_view_setPanelView_self]

/-- Witness for `claim_C2_theorem` at concrete inputs. -/
theorem claim_C2_witness :
    (msStep ⟨viewA, viewA, some .left, true, []⟩ (.moveEnd .right viewB) =
      MSState.setPanelView ⟨viewA, viewA, some .left, true, []⟩ .right viewB) ∧
    (svStep ⟨viewA, viewA, true, []⟩ (.move .slave viewB) =
      SVState.setPanelView ⟨viewA, viewA, true, []⟩ .slave viewB) ∧
    ((msStep ⟨viewA, viewA, some .left, false, []⟩ (.moveEnd .left viewB)).log =
      [] ++ [⟨Panel.left.other, viewB, false⟩]) ∧
    ((svStep ⟨viewA, viewA, false, []⟩ (.move .master viewB)).log =
      [] ++ [⟨SVPanel.master.other, viewB, false⟩]) :=
  ⟨claim_C2_theorem.1 ⟨viewA, viewA, some .left, true, []⟩ .right viewB rfl,
   claim_C2_theorem.2.1 ⟨viewA, viewA, true, []⟩ .slave viewB rfl,
   (claim_C2_theorem.2.2.1 ⟨viewA, viewA, some .left, false, []⟩ .left viewB rfl rfl).2.2,
   (claim_C2_theorem.2.2.2 ⟨viewA, viewA, false, []⟩ .master viewB rfl).2.2⟩

/-! ### Claim C3 -/

/-- Claim C3 as stated is false on the code: the `SyncView` synchronizer
(main `ComparisonView`) records no authoritative panel at all — its
state has no interaction marker — yet a `move` on the slave panel with
the guard free propagates to the master panel.  Concretely, from the
initial state (both panels at `viewA`, no interaction ever recorded), a
single move of the slave to `viewB` sets the master to `viewB`. -/
theorem claim_C3_counterexample :
    (svStep svInit (.move .slave viewB)).viewMaster = viewB ∧ viewB ≠ viewA :=
  ⟨rfl, by decide⟩

/-- Claim C3 (amended): only the `MapSync` synchronizer gates
propagation on the panel most recently recorded as authoritative by an
interaction start (a `moveend` on a panel with `activeMapId` not equal
to it records only that panel's own view and propagates nothing, while
a guard-free `moveend` on the authoritative panel does propagate); the
`SyncView` synchronizer has no authoritative-panel check, and a
guard-free move on either panel propagates to the other. -/
theorem claim_C3_amended_theorem :
    (∀ (s : MSState) (q : Panel) (v : MapView), s.activeMapId ≠ some q →
        msStep s (.moveEnd q v) = s.setPanelView q v)
    ∧ (∀ (s : MSState) (p : Panel) (v : MapView),
        s.activeMapId = some p → s.isSyncing = false →
        (msStep s (.moveEnd p v)).view p.other = v)
    ∧ (∀ (s : SVState) (p : SVPanel) (v : MapView), s.isSyncing = false →
        (svStep s (.move p v)).view p.other = v) := by
  refine ⟨msStep_moveEnd_notActive, ?_, ?_⟩
  · intro s p v hp hg
    rw [msStep_moveEnd_sync s p v hp hg, MSState.view_update_guard_log,
      MSState.view_setPanelView_self]
  · intro s p v hg
    rw [svStep_move_sync s p v hg, sv_view_update_guard_log,
      sv_view_setPanelView_self]

/-- Witness for `claim_C3_amended_theorem` at concrete inputs. -/
theorem claim_C3_amended_witness :
    (msStep msInit (.moveEnd .left viewB) = msInit.setPanelView .left viewB) ∧
    ((msStep ⟨viewA, viewA, some .left, false, []⟩ (.moveEnd .left viewB)).view
        Panel.left.other = viewB) ∧
    ((svStep svInit (.move .slave viewB)).view SVPanel.slave.other = viewB) :=
  ⟨claim_C3_amended_theorem.1 msInit .left viewB (by decide),
   claim_C3_amended_theorem.2.1 ⟨viewA, viewA, some .left, false, []⟩ .left viewB rfl rfl,
   claim_C3_amended_theorem.2.2 svInit .slave viewB rfl⟩

/-! ### Claim C4 -/

/-- Claim C4 as stated is false on the code: only `RegionCenter` has the
`isInitialMount` ref; `MapUpdater` and `FlyTo` run their effect on mount
with no suppression, so mounting either with a non-null initial center
issues one animated flight (duration 1.5 s at zoom 16, resp. 0.8 s at
zoom 18) instead of zero. -/
theorem claim_C4_counterexample :
    mapUpdaterRun [some (21871 / 1000, 83493 / 1000)] =
      [⟨21871 / 1000, 83493 / 1000, 16, 1.5⟩] ∧
    mapUpdaterRun [some (21871 / 1000, 83493 / 1000)] ≠ [] ∧
    flyToRun [some (21871 / 1000, 83493 / 1000)] =
      [⟨21871 / 1000, 83493 / 1000, 18, 0.8⟩] ∧
    flyToRun [some (21871 / 1000, 83493 / 1000)] ≠ [] := by
  refine ⟨rfl, by decide, rfl, by decide⟩

/-- Claim C4 (amended): mounting the region bounds-flight controller
`RegionCenter` issues zero animated flights regardless of the initial
target, and a flight happens only when its dependencies change after
mount (an unchanged re-render emits nothing, a change emits exactly the
flight its data determines); the fly-to helpers `FlyTo` and `FlyToPlot`
and the map updater `MapUpdater` instead issue exactly one animated
flight already on mount whenever their initial center is non-null, and
none when it is null. -/
theorem claim_C4_amended_theorem :
    (∀ (d : String × ZonesData), regionCenterRun [d] = [])
    ∧ (∀ (d d2 : String × ZonesData),
        regionCenterRun [d, d2] =
          if d2 ≠ d then (regionCenterFlight d2.1 d2.2).toList else [])
    ∧ (∀ (c : Center), mapUpdaterRun [some c] = [⟨c.1, c.2, 16, 1.5⟩])
    ∧ (mapUpdaterRun [none] = [])
    ∧ (∀ (c : Center), flyToRun [some c] = [⟨c.1, c.2, 18, 0.8⟩])
    ∧ (flyToRun [none] = [])
    ∧ (∀ (c : Center), flyToPlotRun [some c] = [⟨c.1, c.2, 18, 1.2⟩])
    ∧ (flyToPlotRun [none] = []) := by
  refine ⟨fun d => rfl, ?_, fun c => rfl, rfl, fun c => rfl, rfl, fun c => rfl, rfl⟩
  intro d d2
  show (if d2 ≠ d then (regionCenterFlight d2.1 d2.2).toList else []) ++ [] = _
  exact List.append_nil _

/-! ### Claim C9 -/

/-- Claim C9: the statistics view's `calcPenalty` and the intelligence
report's "Total Recoverable" amount compute the same function of the
excess encroached area: `25000 + Math.round(a * 10.764 * 600)` (both
multiply left-to-right, so they agree exactly). -/
theorem claim_C9_theorem : ∀ (a : ℚ), calcPenalty a = reportTotalRecoverable a := by
  intro a
  rfl

/-! ### Claim C10 -/

theorem centroidStep_eq (acc : ℚ × ℚ × ℕ) (pt : RingEntry) :
    centroidStep acc pt =
      match entryLatLng pt with
      | some ll => (acc.1 + ll.1, acc.2.1 + ll.2, acc.2.2 + 1)
      | none => acc := by
  cases pt with
  | nonArray => rfl
  | arr cs =>
    match cs with
    | [] => rfl
    | [a] => rfl
    | a :: b :: t => rfl

theorem centroid_foldl (r : List RingEntry) :
    ∀ (a b : ℚ) (n : ℕ),
      r.foldl centroidStep (a, b, n) =
        (a + ((r.filterMap entryLatLng).map Prod.fst).sum,
         b + ((r.filterMap entryLatLng).map Prod.snd).sum,
         n + (r.filterMap entryLatLng).length) := by
  induction r with
  | nil => intro a b n; simp
  | cons pt r ih =>
    intro a b n
    rw [List.foldl_cons, centroidStep_eq]
    cases hp : entryLatLng pt with
    | none =>
      simp only [List.filterMap_cons, hp]
      exact ih a b n
    | some ll =>
      simp only [List.filterMap_cons, hp, List.map_cons, List.sum_cons, List.length_cons]
      rw [ih (a + ll.1) (b + ll.2) (n + 1)]
      refine congrArg₂ Prod.mk (by ring) (congrArg₂ Prod.mk (by ring) (by omega))

/-- Claim C10: the `centroid` helper is total; a `null` or empty ring,
or a ring with no valid entry (an array of length at least 2), yields
`[0, 0]`, and otherwise it returns the arithmetic mean of the latitudes
and longitudes of the valid entries, skipping invalid ones. -/
theorem claim_C10_theorem :
    ∀ (ring : Option (List RingEntry)),
      centroid ring =
        match ring with
        | none => (0, 0)
        | some r =>
          if (r.filterMap entryLatLng).length = 0 then (0, 0)
          else
            (((r.filterMap entryLatLng).map Prod.fst).sum /
               ((r.filterMap entryLatLng).length : ℚ),
             ((r.filterMap entryLatLng).map Prod.snd).sum /
               ((r.filterMap entryLatLng).length : ℚ)) := by
  intro ring
  cases ring with
  | none => rfl
  | some r =>
    show centroid (some r) = _
    unfold centroid
    by_cases hr : r.length = 0
    · rw [List.length_eq_zero] at hr
      subst hr
      simp
    · simp only [hr, if_false, centroid_foldl r 0 0 0, zero_add]
      by_cases hL : (r.filterMap entryLatLng).length = 0
      · simp [hL]
      · have hpos : (r.filterMap entryLatLng).length > 0 := Nat.pos_of_ne_zero hL
        simp [hL, hpos]

/-! ### Claim C6 -/

/-- Claim C6 as stated is false on the code: the auto-deselect effect
re-runs only when `showLabels` changes between renders, so a plot
selected while the zoom is already below the threshold stays selected,
and a further zoom-out below the threshold does not clear it either.
Concretely, starting at zoom 16 with nothing selected, after zooming to
13, clicking a plot, and zooming to 12, the zoom is below the threshold
yet the previously selected plot is still selected. -/
theorem claim_C6_counterexample :
    (compRun ⟨16, none, false, false⟩
        [.zoomTo 13, .clickPlot plotP1, .zoomTo 12]).zoomLevel < LABEL_ZOOM_THRESHOLD ∧
    (compRun ⟨16, none, false, false⟩
        [.zoomTo 13, .clickPlot plotP1, .zoomTo 12]).localSelected = some plotP1 := by
  exact ⟨by decide, rfl⟩

/-- Claim C6 (amended): a zoom change clears the plot selection exactly
when it crosses the label threshold (14) downward — previous zoom at or
above it, new zoom below it; a zoom change landing at or above the
threshold always preserves the selection, and a zoom change that stays
below the threshold (labels already off) also preserves it. -/
theorem claim_C6_amended_theorem :
    (∀ (s : CompSelState) (z : ℤ),
        showLabels s.zoomLevel = true → z < LABEL_ZOOM_THRESHOLD →
        (compStep s (.zoomTo z)).localSelected = none)
    ∧ (∀ (s : CompSelState) (z : ℤ), LABEL_ZOOM_THRESHOLD ≤ z →
        (compStep s (.zoomTo z)).localSelected = s.localSelected)
    ∧ (∀ (s : CompSelState) (z : ℤ),
        showLabels s.zoomLevel = false → z < LABEL_ZOOM_THRESHOLD →
        (compStep s (.zoomTo z)).localSelected = s.localSelected) := by
  refine ⟨?_, ?_, ?_⟩
  · intro s z hs hz
    have hz' : showLabels z = false := by
      simp only [showLabels, decide_eq_false_iff_not]
      omega
    simp [compStep, hz', hs]
  · intro s z hz
    have hz' : showLabels z = true := by
      simp only [showLabels, decide_eq_true_eq]
      exact hz
    by_cases hs : showLabels s.zoomLevel <;> simp [compStep, hz', hs]
  · intro s z hs hz
    have hz' : showLabels z = false := by
      simp only [showLabels, decide_eq_false_iff_not]
      omega
    simp [compStep, hz', hs]

/-- Witness for `claim_C6_amended_theorem` at concrete inputs. -/
theorem claim_C6_amended_witness :
    ((compStep ⟨16, some plotP1, false, false⟩ (.zoomTo 13)).localSelected = none) ∧
    ((compStep ⟨16, some plotP1, false, false⟩ (.zoomTo 15)).localSelected =
      (⟨16, some plotP1, false, false⟩ : CompSelState).localSelected) ∧
    ((compStep ⟨13, some plotP1, false, false⟩ (.zoomTo 12)).localSelected =
      (⟨13, some plotP1, false, false⟩ : CompSelState).localSelected) :=
  ⟨claim_C6_amended_theorem.1 ⟨16, some plotP1, false, false⟩ 13 rfl (by decide),
   claim_C6_amended_theorem.2.1 ⟨16, some plotP1, false, false⟩ 15 (by decide),
   claim_C6_amended_theorem.2.2 ⟨13, some plotP1, false, false⟩ 12 rfl (by decide)⟩

/-! ### Claim C5 -/

theorem handlePlotClick_requests (fmtDate : String → String) (p : PlotRec)
    (o : Option (AnalysisResp × List TimelineItem)) (ds : DashState) :
    (handlePlotClick fmtDate p o ds).requests = ds.requests ++
      [.analyzePlot p.plot_id (p.coordinates.headD []),
       .analyzeTimeline p.plot_id (p.coordinates.headD [])] := by
  cases o with
  | none => rfl
  | some x =>
    obtain ⟨a, t⟩ := x
    rfl

/-- Claim C5 as stated is false on the code: in the single-map view
(`Map.jsx`), the polygon click handler is wired directly to
`handlePlotClick`, which issues the analyze and timeline network
requests.  Concretely, clicking the `plotV` polygon there appends the
two requests to an initially empty request log. -/
theorem claim_C5_counterexample :
    (mapPolygonClick id plotV none dash0).requests =
      [.analyzePlot "P-7" [[83, 21], [84, 21], [84, 22]],
       .analyzeTimeline "P-7" [[83, 21], [84, 21], [84, 22]]] ∧
    (mapPolygonClick id plotV none dash0).requests ≠ dash0.requests := by
  exact ⟨rfl, by decide⟩

/-- Claim C5 (amended): in the comparison view, clicking a plot polygon
runs `handleSelect`, which only sets the local selection and issues no
network request; the analysis and timeline requests are issued by the
explicit scan action (`handleScan`, which forwards the selected plot to
`handlePlotClick`, and is a no-op with no requests when nothing is
selected).  In the single-map view, however, the polygon click is wired
directly to `handlePlotClick` and itself issues the two requests. -/
theorem claim_C5_amended_theorem :
    (∀ (s : CompSelState) (p : PlotRec),
        compStep s (.clickPlot p) = { s with localSelected := some p })
    ∧ (∀ (fmtDate : String → String) (p : PlotRec)
          (o : Option (AnalysisResp × List TimelineItem)) (ds : DashState),
        (mapPolygonClick fmtDate p o ds).requests = ds.requests ++
          [.analyzePlot p.plot_id (p.coordinates.headD []),
           .analyzeTimeline p.plot_id (p.coordinates.headD [])])
    ∧ (∀ (fmtDate : String → String) (o : Option (AnalysisResp × List TimelineItem))
          (cs : CompSelState) (ds : DashState),
        cs.localSelected = none → handleScan fmtDate o cs ds = (cs, ds))
    ∧ (∀ (fmtDate : String → String) (o : Option (AnalysisResp × List TimelineItem))
          (cs : CompSelState) (ds : DashState) (p : PlotRec),
        cs.localSelected = some p →
        (handleScan fmtDate o cs ds).2.requests = ds.requests ++
          [.analyzePlot p.plot_id (p.coordinates.headD []),
           .analyzeTimeline p.plot_id (p.coordinates.headD [])]) := by
  refine ⟨fun s p => rfl, ?_, ?_, ?_⟩
  · intro fmtDate p o ds
    exact handlePlotClick_requests fmtDate p o ds
  · intro fmtDate o cs ds h
    simp [handleScan, h]
  · intro fmtDate o cs ds p h
    simp [handleScan, h, handlePlotClick_requests]

/-- Witness for `claim_C5_amended_theorem` at concrete inputs. -/
theorem claim_C5_amended_witness :
    (handleScan id none ⟨16, none, false, false⟩ dash0 =
      (⟨16, none, false, false⟩, dash0)) ∧
    ((handleScan id none ⟨16, some plotV, false, false⟩ dash0).2.requests =
      dash0.requests ++
        [.analyzePlot plotV.plot_id (plotV.coordinates.headD []),
         .analyzeTimeline plotV.plot_id (plotV.coordinates.headD [])]) :=
  ⟨claim_C5_amended_theorem.2.2.1 id none ⟨16, none, false, false⟩ dash0 rfl,
   claim_C5_amended_theorem.2.2.2 id none ⟨16, some plotV, false, false⟩ dash0 plotV rfl⟩

/-! ### Claim C8 -/

/-- Claim C8 as stated is false on the code: `handlePlotClick`
overwrites the selected plot's description with the transient scanning
message and clears `is_violating` to `false` before issuing the
requests, and the failure path never restores them.  Concretely, a
failing scan of `plotV` (violating, with an informative description)
leaves the selected plot with the transient description and
`is_violating = false`, which differs from its pre-scan state. -/
theorem claim_C8_counterexample :
    (handlePlotClick id plotV none dash0).selectedPlot =
      some { plotV with description := scanningDescription, is_violating := false } ∧
    ({ plotV with description := scanningDescription, is_violating := false } : PlotRec)
      ≠ plotV := by
  exact ⟨rfl, by decide⟩

/-- Claim C8 (amended): the in-progress flags are cleared regardless of
success or failure; on failure a transient error notification is
surfaced after the request notification, and the plot collections
(`allZonesData`, `plots`) and the timeline data are left exactly as
before the scan — but the selected-plot state is not reverted: it keeps
the transient scanning description and the `is_violating` flag cleared
to `false` that were set when the scan started. -/
theorem claim_C8_amended_theorem :
    (∀ (fmtDate : String → String) (p : PlotRec)
        (o : Option (AnalysisResp × List TimelineItem)) (s : DashState),
        (handlePlotClick fmtDate p o s).loading = false ∧
        (handlePlotClick fmtDate p o s).timelineLoading = false)
    ∧ (∀ (fmtDate : String → String) (p : PlotRec) (s : DashState),
        (handlePlotClick fmtDate p none s).allZonesData = s.allZonesData ∧
        (handlePlotClick fmtDate p none s).plots = s.plots ∧
        (handlePlotClick fmtDate p none s).timelineData = s.timelineData ∧
        (handlePlotClick fmtDate p none s).notifications =
          (s.notifications ++ [requestMsg p]) ++ [backendErrorMsg] ∧
        (handlePlotClick fmtDate p none s).selectedPlot =
          some { p with description := scanningDescription, is_violating := false }) := by
  constructor
  · intro fmtDate p o s
    cases o with
    | none => exact ⟨rfl, rfl⟩
    | some x =>
      obtain ⟨a, t⟩ := x
      exact ⟨rfl, rfl⟩
  · intro fmtDate p s
    exact ⟨rfl, rfl, rfl, rfl, rfl⟩

/-! ### Claim C7 -/

theorem chunksOf5_flatten {α : Type} : ∀ (l : List α), (chunksOf5 l).flatten = l := by
  intro l
  induction l using chunksOf5.induct with
  | case1 => rw [chunksOf5]; rfl
  | case2 x xs ih => rw [chunksOf5, List.flatten_cons, ih, List.take_append_drop]

theorem scanBatchStep_fst (oracle : String → String → Option AnalysisResp) (total : ℕ) :
    ∀ (bs : List (List (String × PlotRec))) (z : ZonesData) (n : ℕ),
      (bs.foldl (scanBatchStep oracle total) (z, n)).1 =
        bs.foldl (fun z b => mergeBatch (scanBatchResults oracle b) z) z := by
  intro bs
  induction bs with
  | nil => intro z n; rfl
  | cons b bs ih =>
    intro z n
    exact ih (mergeBatch (scanBatchResults oracle b) z) (min (n + b.length) total)

theorem mergeBatch_append (rs1 rs2 : List (String × String × AnalysisResp)) (zd : ZonesData) :
    mergeBatch (rs1 ++ rs2) zd = mergeBatch rs2 (mergeBatch rs1 zd) :=
  List.foldl_append _ _ _ _

theorem foldl_mergeBatch_batches (oracle : String → String → Option AnalysisResp) :
    ∀ (bs : List (List (String × PlotRec))) (zd : ZonesData),
      bs.foldl (fun z b => mergeBatch (scanBatchResults oracle b) z) zd =
        mergeBatch (scanBatchResults oracle bs.flatten) zd := by
  intro bs
  induction bs with
  | nil => intro zd; rfl
  | cons b bs ih =>
    intro zd
    show bs.foldl _ (mergeBatch (scanBatchResults oracle b) zd) = _
    rw [ih, List.flatten_cons]
    rw [show scanBatchResults oracle (b ++ bs.flatten) =
          scanBatchResults oracle b ++ scanBatchResults oracle bs.flatten from
        List.filterMap_append _ _ _]
    rw [mergeBatch_append]

theorem scanBatchResults_scanTasks (oracle : String → String → Option AnalysisResp) :
    ∀ (zd : ZonesData),
      scanBatchResults oracle (scanTasks zd) =
        zd.flatMap (fun e => zoneResults oracle e.1 e.2) := by
  intro zd
  induction zd with
  | nil => rfl
  | cons e zd ih =>
    calc scanBatchResults oracle (scanTasks (e :: zd))
        = scanBatchResults oracle (e.2.map (fun p => (e.1, p)) ++ scanTasks zd) := rfl
      _ = scanBatchResults oracle (e.2.map (fun p => (e.1, p))) ++
            scanBatchResults oracle (scanTasks zd) := List.filterMap_append _ _ _
      _ = zoneResults oracle e.1 e.2 ++
            zd.flatMap (fun e2 => zoneResults oracle e2.1 e2.2) := by
          rw [ih]
          congr 1
          exact List.filterMap_map _ _ _
      _ = (e :: zd).flatMap (fun e2 => zoneResults oracle e2.1 e2.2) := rfl

theorem mergeBatch_map (rs : List (String × String × AnalysisResp)) :
    ∀ (zd : ZonesData), mergeBatch rs zd = zd.map (entryFold rs) := by
  induction rs with
  | nil =>
    intro zd
    show zd = zd.map (entryFold [])
    rw [show zd.map (entryFold []) = zd.map id from
        List.map_congr_left (fun e _ => rfl), List.map_id]
  | cons r rs ih =>
    intro zd
    show mergeBatch rs (updateZones r.1 r.2.1 r.2.2 zd) = zd.map (entryFold (r :: rs))
    rw [show updateZones r.1 r.2.1 r.2.2 zd = zd.map (updateEntry r) from rfl]
    rw [ih, List.map_map]
    exact List.map_congr_left (fun e _ => rfl)

theorem entryFold_of_ne (e : String × List PlotRec) :
    ∀ (rs : List (String × String × AnalysisResp)),
      (∀ r ∈ rs, e.1 ≠ r.1) → entryFold rs e = e := by
  intro rs
  induction rs with
  | nil => intro h; rfl
  | cons r rs ih =>
    intro h
    show entryFold rs (updateEntry r e) = e
    rw [show updateEntry r e = e from by
      rw [updateEntry, if_neg (h r (List.mem_cons_self _ _))]]
    exact ih (fun r' hr' => h r' (List.mem_cons_of_mem _ hr'))

theorem plotFold_of_ne (q : PlotRec) :
    ∀ (rs : List (String × AnalysisResp)),
      (∀ r ∈ rs, q.plot_id ≠ r.1) → plotFold rs q = q := by
  intro rs
  induction rs with
  | nil => intro h; rfl
  | cons r rs ih =>
    intro h
    show plotFold rs (if q.plot_id = r.1 then applyResp q r.2 else q) = q
    rw [if_neg (h r (List.mem_cons_self _ _))]
    exact ih (fun r' hr' => h r' (List.mem_cons_of_mem _ hr'))

theorem zoneResults_fst (oracle : String → String → Option AnalysisResp)
    (z : String) (ps : List PlotRec) :
    ∀ r ∈ zoneResults oracle z ps, r.1 = z := by
  intro r hr
  rw [zoneResults, List.mem_filterMap] at hr
  obtain ⟨p, _, hp⟩ := hr
  rw [Option.map_eq_some'] at hp
  obtain ⟨d, _, hd⟩ := hp
  rw [← hd]

theorem plotResults_fst_mem (oracle : String → String → Option AnalysisResp)
    (z : String) (ps : List PlotRec) :
    ∀ r ∈ plotResults oracle z ps, r.1 ∈ ps.map PlotRec.plot_id := by
  intro r hr
  rw [plotResults, List.mem_filterMap] at hr
  obtain ⟨p, hpm, hp⟩ := hr
  rw [Option.map_eq_some'] at hp
  obtain ⟨d, _, hd⟩ := hp
  rw [← hd]
  exact List.mem_map_of_mem _ hpm

theorem flatMap_zoneResults_fst (oracle : String → String → Option AnalysisResp)
    (m : ZonesData) :
    ∀ r ∈ m.flatMap (fun e => zoneResults oracle e.1 e.2), r.1 ∈ m.map Prod.fst := by
  intro r hr
  rw [List.mem_flatMap] at hr
  obtain ⟨e, he, hr2⟩ := hr
  rw [zoneResults_fst oracle e.1 e.2 r hr2]
  exact List.mem_map_of_mem _ he

theorem entryFold_zoneResults (oracle : String → String → Option AnalysisResp)
    (z : String) :
    ∀ (ps qs : List PlotRec),
      entryFold (zoneResults oracle z ps) (z, qs) =
        (z, plotsFold (plotResults oracle z ps) qs) := by
  intro ps
  induction ps with
  | nil => intro qs; rfl
  | cons p ps ih =>
    intro qs
    cases ho : oracle z p.plot_id with
    | none =>
      rw [show zoneResults oracle z (p :: ps) = zoneResults oracle z ps from by
        simp [zoneResults, List.filterMap_cons, ho]]
      rw [show plotResults oracle z (p :: ps) = plotResults oracle z ps from by
        simp [plotResults, List.filterMap_cons, ho]]
      exact ih qs
    | some d =>
      rw [show zoneResults oracle z (p :: ps) =
            (z, p.plot_id, d) :: zoneResults oracle z ps from by
        simp [zoneResults, List.filterMap_cons, ho]]
      rw [show plotResults oracle z (p :: ps) =
            (p.plot_id, d) :: plotResults oracle z ps from by
        simp [plotResults, List.filterMap_cons, ho]]
      show entryFold (zoneResults oracle z ps) (updateEntry (z, p.plot_id, d) (z, qs)) = _
      rw [show updateEntry (z, p.plot_id, d) (z, qs) = (z, updatePlots p.plot_id d qs) from by
        rw [updateEntry, if_pos rfl]]
      exact ih (updatePlots p.plot_id d qs)

theorem plotsFold_map (rs : List (String × AnalysisResp)) :
    ∀ (qs : List PlotRec), plotsFold rs qs = qs.map (plotFold rs) := by
  induction rs with
  | nil =>
    intro qs
    show qs = qs.map (plotFold [])
    rw [show qs.map (plotFold []) = qs.map id from
        List.map_congr_left (fun q _ => rfl), List.map_id]
  | cons r rs ih =>
    intro qs
    show plotsFold rs (updatePlots r.1 r.2 qs) = qs.map (plotFold (r :: rs))
    rw [show updatePlots r.1 r.2 qs =
          qs.map (fun p => if p.plot_id = r.1 then applyResp p r.2 else p) from rfl]
    rw [ih, List.map_map]
    exact List.map_congr_left (fun q _ => rfl)

theorem plotFold_plotResults (oracle : String → String → Option AnalysisResp)
    (z : String) (ps : List PlotRec) (h : (ps.map PlotRec.plot_id).Nodup) :
    ∀ q ∈ ps, plotFold (plotResults oracle z ps) q = oraclePointwise oracle z q := by
  intro q hq
  obtain ⟨l1, l2, rfl⟩ := List.append_of_mem hq
  rw [List.map_append, List.map_cons, List.nodup_middle] at h
  have hnotin := (List.nodup_cons.mp h).1
  rw [List.mem_append] at hnotin
  push_neg at hnotin
  obtain ⟨h1, h2⟩ := hnotin
  rw [show plotResults oracle z (l1 ++ q :: l2) =
        plotResults oracle z l1 ++ plotResults oracle z (q :: l2) from by
    simp [plotResults, List.filterMap_append]]
  rw [show plotFold (plotResults oracle z l1 ++ plotResults oracle z (q :: l2)) q =
        plotFold (plotResults oracle z (q :: l2)) (plotFold (plotResults oracle z l1) q) from
    List.foldl_append _ _ _ _]
  rw [plotFold_of_ne q _ (fun r hr heq =>
    h1 (heq ▸ plotResults_fst_mem oracle z l1 r hr))]
  cases ho : oracle z q.plot_id with
  | none =>
    rw [show plotResults oracle z (q :: l2) = plotResults oracle z l2 from by
      simp [plotResults, List.filterMap_cons, ho]]
    rw [plotFold_of_ne q _ (fun r hr heq =>
      h2 (heq ▸ plotResults_fst_mem oracle z l2 r hr))]
    rw [oraclePointwise, ho]
  | some d =>
    rw [show plotResults oracle z (q :: l2) =
          (q.plot_id, d) :: plotResults oracle z l2 from by
      simp [plotResults, List.filterMap_cons, ho]]
    show plotFold (plotResults oracle z l2)
        (if q.plot_id = q.plot_id then applyResp q d else q) = _
    rw [if_pos rfl]
    rw [plotFold_of_ne (applyResp q d) _ (fun r hr heq =>
      h2 (heq ▸ plotResults_fst_mem oracle z l2 r hr))]
    rw [oraclePointwise, ho]

theorem entryFold_all (oracle : String → String → Option AnalysisResp)
    (zd : ZonesData) (hkeys : (zd.map Prod.fst).Nodup)
    (hplots : ∀ e ∈ zd, (e.2.map PlotRec.plot_id).Nodup) :
    ∀ e ∈ zd,
      entryFold (zd.flatMap (fun e2 => zoneResults oracle e2.1 e2.2)) e =
        (e.1, e.2.map (oraclePointwise oracle e.1)) := by
  intro e he
  have hpe := hplots e he
  obtain ⟨z, ps⟩ := e
  obtain ⟨m1, m2, rfl⟩ := List.append_of_mem he
  rw [List.map_append, List.map_cons, List.nodup_middle] at hkeys
  have hnotin := (List.nodup_cons.mp hkeys).1
  rw [List.mem_append] at hnotin
  push_neg at hnotin
  obtain ⟨hk1, hk2⟩ := hnotin
  rw [List.flatMap_append, List.flatMap_cons]
  rw [show entryFold (m1.flatMap (fun e2 => zoneResults oracle e2.1 e2.2) ++
        (zoneResults oracle z ps ++
          m2.flatMap (fun e2 => zoneResults oracle e2.1 e2.2))) (z, ps) =
      entryFold (zoneResults oracle z ps ++
          m2.flatMap (fun e2 => zoneResults oracle e2.1 e2.2))
        (entryFold (m1.flatMap (fun e2 => zoneResults oracle e2.1 e2.2)) (z, ps)) from
    List.foldl_append _ _ _ _]
  rw [entryFold_of_ne (z, ps) _ (fun r hr heq =>
    hk1 (heq ▸ flatMap_zoneResults_fst oracle m1 r hr))]
  rw [show entryFold (zoneResults oracle z ps ++
        m2.flatMap (fun e2 => zoneResults oracle e2.1 e2.2)) (z, ps) =
      entryFold (m2.flatMap (fun e2 => zoneResults oracle e2.1 e2.2))
        (entryFold (zoneResults oracle z ps) (z, ps)) from List.foldl_append _ _ _ _]
  rw [entryFold_zoneResults oracle z ps ps]
  rw [entryFold_of_ne (z, plotsFold (plotResults oracle z ps) ps) _ (fun r hr heq =>
    hk2 (heq ▸ flatMap_zoneResults_fst oracle m2 r hr))]
  rw [plotsFold_map]
  exact congrArg (Prod.mk z) (List.map_congr_left (plotFold_plotResults oracle z ps hpe))

/-- Claim C7: after the bulk auto-scan settles, `scanProgress` is
`{ scanned: N, total: N, scanning: false }` where `N` is the number of
loaded plots, regardless of which individual requests failed; every
plot whose request was fulfilled has its response merged, every plot
whose request was rejected is left unchanged (so neither its batch nor
subsequent batches are aborted), assuming zone keys and per-zone plot
ids are distinct (as they are for JavaScript-object keys and GeoJSON
feature names). -/
theorem claim_C7_theorem (oracle : String → String → Option AnalysisResp)
    (zd : ZonesData) (hkeys : (zd.map Prod.fst).Nodup)
    (hplots : ∀ e ∈ zd, (e.2.map PlotRec.plot_id).Nodup) :
    (scanAllRun oracle zd).2 =
      ⟨((zd.map Prod.snd).flatten).length, ((zd.map Prod.snd).flatten).length, false⟩ ∧
    (scanAllRun oracle zd).1 =
      zd.map (fun e => (e.1, e.2.map (oraclePointwise oracle e.1))) := by
  have hrun0 : scanAllRun oracle zd =
      if ((zd.map Prod.snd).flatten).length = 0 then (zd, ⟨0, 0, false⟩)
      else
        (((chunksOf5 (scanTasks zd)).foldl
            (scanBatchStep oracle (((zd.map Prod.snd).flatten).length)) (zd, 0)).1,
         ⟨((zd.map Prod.snd).flatten).length, ((zd.map Prod.snd).flatten).length, false⟩) :=
    rfl
  by_cases hN : ((zd.map Prod.snd).flatten).length = 0
  · have hrun : scanAllRun oracle zd = (zd, ⟨0, 0, false⟩) := by
      rw [hrun0, if_pos hN]
    have hempty : ∀ e ∈ zd, e.2 = [] := by
      rw [List.length_eq_zero, List.flatten_eq_nil_iff] at hN
      intro e he
      exact hN e.2 (List.mem_map_of_mem _ he)
    constructor
    · rw [hrun, hN]
    · rw [hrun]
      show zd = _
      rw [show zd.map (fun e => (e.1, e.2.map (oraclePointwise oracle e.1))) =
            zd.map id from List.map_congr_left ?_, List.map_id]
      intro e he
      obtain ⟨z, ps⟩ := e
      have : ps = [] := hempty (z, ps) he
      subst this
      rfl
  · have hrun : scanAllRun oracle zd =
        (((chunksOf5 (scanTasks zd)).foldl
            (scanBatchStep oracle (((zd.map Prod.snd).flatten).length)) (zd, 0)).1,
         ⟨((zd.map Prod.snd).flatten).length, ((zd.map Prod.snd).flatten).length, false⟩) := by
      rw [hrun0, if_neg hN]
    constructor
    · rw [hrun]
    · rw [hrun]
      show ((chunksOf5 (scanTasks zd)).foldl _ (zd, 0)).1 = _
      rw [scanBatchStep_fst, foldl_mergeBatch_batches, chunksOf5_flatten,
        scanBatchResults_scanTasks, mergeBatch_map]
      exact List.map_congr_left (entryFold_all oracle zd hkeys hplots)

/-- Witness for `claim_C7_theorem` at a concrete zones table and oracle
(the `"P-1"` request fulfilled, the `"P-7"` request rejected). -/
theorem claim_C7_witness :
    (scanAllRun (fun _ pid => if pid = "P-1" then some respSample else none)
        [("siyarpali", [plotP1]), ("khapri", [plotV])]).2 =
      ⟨2, 2, false⟩ ∧
    (scanAllRun (fun _ pid => if pid = "P-1" then some respSample else none)
        [("siyarpali", [plotP1]), ("khapri", [plotV])]).1 =
      [("siyarpali", [applyResp plotP1 respSample]), ("khapri", [plotV])] := by
  have h := claim_C7_theorem (fun _ pid => if pid = "P-1" then some respSample else none)
    [("siyarpali", [plotP1]), ("khapri", [plotV])] (by decide) (by decide)
  refine ⟨h.1, ?_⟩
  rw [h.2]
  rfl

end LandGuard
